import Mathlib

/-!
Verification development for the QMLA search orchestrator.

Shallow embedding of the core of the repository:
  * name canonicalisation and parsing (qmla/database_framework.py),
  * model registry and branch creation (quantum_model_learning_agent.py),
  * the pairwise tournament engine (processRemoteBayesPair,
    compare_all_models_in_branch, compare_models_from_list),
  * the parent/child collapse phase of perform_final_bayes_comparisons,
  * the generation polling loop of run_complete_qmla,
  * num_pairs_in_list (qmla/tree.py).

Numeric values carried by the bayes-factor store are embedded as exact
rationals.  Python exceptions are modelled explicitly: functions that can
raise return Option or the Outcome type below.  Recursions whose
termination the source does not establish are given explicit fuel.
-/

namespace QMLA

/-! ### String utilities mirroring Python string methods -/

/-- Does the pattern occur at the head of the list (Python startswith). -/
def headMatches : List Char → List Char → Bool
  | _, [] => true
  | [], _ :: _ => false
  | c :: cs, d :: ds => c == d && headMatches cs ds

/-- Does the pattern occur anywhere in the list (Python `needle in s`,
equivalently `s.count(needle) > 0` for the uses in the source). -/
def hasSubstring : List Char → List Char → Bool
  | [], pat => headMatches [] pat
  | c :: cs, pat => headMatches (c :: cs) pat || hasSubstring cs pat

/-- Worker for pySplit; fuel bounds the scan, one unit per consumed char. -/
def splitAuxChars (sep : List Char) : Nat → List Char → List Char → List (List Char)
  | 0, l, acc => [acc.reverse ++ l]
  | fuel + 1, l, acc =>
    match l with
    | [] => [acc.reverse]
    | c :: cs =>
      if headMatches (c :: cs) sep then
        acc.reverse :: splitAuxChars sep fuel ((c :: cs).drop sep.length) []
      else
        splitAuxChars sep fuel cs (c :: acc)

/-- Python str.split with a non-empty separator: greedy left-to-right scan
over non-overlapping occurrences. -/
def pySplit (s sep : String) : List String :=
  (splitAuxChars sep.toList (s.toList.length + 1) s.toList []).map fun cs => String.mk cs

/-- Lexicographic code-point comparison of character lists: the Python
string order. -/
def ltChars : List Char → List Char → Bool
  | [], [] => false
  | [], _ :: _ => true
  | _ :: _, [] => false
  | c :: cs, d :: ds =>
    if c.toNat < d.toNat then true
    else if d.toNat < c.toNat then false
    else ltChars cs ds

/-- Ascending stable sort of strings by the code-point order, as Python
sorted.  Equal strings are indistinguishable, so plain insertion sort below
realises the same list. -/
def insertStr (x : String) : List String → List String
  | [] => [x]
  | y :: ys => if ltChars y.toList x.toList then y :: insertStr x ys else x :: y :: ys

/-- Python sorted on a list of strings. -/
def pySorted : List String → List String
  | [] => []
  | x :: xs => insertStr x (pySorted xs)

/-! ### database_framework.py : name parsing and canonicalisation -/

/-- Worker for find_max_letter: grow the run while it still occurs. -/
def findMaxLetterAux (s letter : String) : Nat → String → String
  | 0, acc => acc
  | fuel + 1, acc =>
    if hasSubstring s.toList (acc ++ letter).toList then
      findMaxLetterAux s letter fuel (acc ++ letter)
    else acc

/-- find_max_letter (database_framework.py line 475): the largest run of
consecutive occurrences of the letter, returned as (length, run). -/
def find_max_letter (s letter : String) : Nat × String :=
  let run := findMaxLetterAux s letter (s.toList.length + 1) ""
  (run.toList.length, run)

/-- get_t_p_strings (database_framework.py line 456). -/
def get_t_p_strings (name : String) : String × String × Nat × Nat :=
  let t := (find_max_letter name "T").2
  let p := (find_max_letter name "P").2
  (t, p, t.toList.length, p.toList.length)

/-- verbose_naming_mechanism_separate_terms (database_framework.py line 365). -/
def verbose_naming_mechanism_separate_terms (name : String) : List String :=
  let tp := get_t_p_strings name
  let p_str := tp.2.1
  let max_t := tp.2.2.1
  let max_p := tp.2.2.2
  if max_t ≥ max_p then [name] else pySplit name p_str

/-- get_constituent_names_from_name (database_framework.py line 354). -/
def get_constituent_names_from_name (name : String) : List String :=
  if hasSubstring name.toList "T".toList
      || hasSubstring name.toList "P".toList
      || hasSubstring name.toList "M".toList then
    verbose_naming_mechanism_separate_terms name
  else pySplit name "+"

/-- The special-term test of get_num_qubits (database_framework.py lines
312 to 326).  The first disjunct compares the one-character slice term[0:1]
with the two-character string, which is never equal; it is kept verbatim. -/
def isSpecialTerm (term : String) : Bool :=
  String.mk (term.toList.take 1) == "h_"
    || hasSubstring term.toList "1Dising".toList
    || hasSubstring term.toList "Heis".toList
    || hasSubstring term.toList "nv".toList
    || hasSubstring term.toList "pauliSet".toList
    || hasSubstring term.toList "transverse".toList
    || hasSubstring term.toList "FH".toList

/-- Dimension parse for a special term: int(term.split(CHR95)[-1][1:]).
Returns none where Python int() would raise. -/
def parseDimTerm (term : String) : Option Nat :=
  match (pySplit term "_").getLast? with
  | none => none
  | some dimTerm => (String.mk (dimTerm.toList.drop 1)).toNat?

/-- get_num_qubits (database_framework.py line 303).  none models an
uncaught parsing exception. -/
def get_num_qubits (name : String) : Option Nat :=
  let terms := get_constituent_names_from_name name
  match terms.find? isSpecialTerm with
  | some term => parseDimTerm term
  | none =>
    let t_run := (find_max_letter name "T").2
    some (t_run.toList.length + 1)

/-- Worker for alph (database_framework.py line 504), with fuel for the
recursion on substrings.  The branch structure, including the doubled
p_max test of line 513 and the sort-before-recursion order of the deep-P
branch, follows the source exactly. -/
def alphAux : Nat → String → String
  | 0, name => name
  | fuel + 1, name =>
    let tm := find_max_letter name "T"
    let pm := find_max_letter name "P"
    let mm := find_max_letter name "M"
    let t_max := tm.1; let t_str := tm.2
    let p_max := pm.1; let p_str := pm.2
    let m_max := mm.1; let m_str := mm.2
    if p_max = 0 ∧ t_max = 0 ∧ p_max = 0 then name
    else
      let sel : String × String :=
        if p_max > t_max ∧ p_max > m_max then ("P", p_str)
        else if t_max ≥ p_max then ("T", t_str)
        else if m_max ≥ p_max then ("M", m_str)
        else if t_max > m_max then ("T", t_str)
        else ("M", m_str)
      let ltr := sel.1
      let sep := sel.2
      let spread := pySplit name sep
      if p_max = m_max ∧ p_max > t_max then
        let listElements := (pySplit name p_str).map (alphAux fuel)
        String.intercalate p_str (pySorted listElements)
      else if ltr = "P" ∧ p_max = 1 then
        String.intercalate sep (pySorted spread)
      else if ltr = "P" ∧ p_max > 1 then
        let sortedList := pySorted (pySplit name sep)
        String.intercalate sep (sortedList.map (alphAux fuel))
      else
        String.intercalate sep (spread.map (alphAux fuel))

/-- alph (database_framework.py line 504): alphabetised canonical form of a
model name.  Every recursive call is on a strictly shorter string, so
length + 1 units of fuel are never exhausted. -/
def alph (name : String) : String :=
  alphAux (name.toList.length + 1) name

/-- unique_model_pair_identifier (database_framework.py line 816): the
source builds the string "min,max"; the pair of ids carries the same
information. -/
def unique_model_pair_identifier (a b : Nat) : Nat × Nat :=
  (min a b, max a b)

/-! #### Binary64 arithmetic used by num_pairs_in_list

The source computes (n!/2!)/(n-2)! with Python float division, so the
result is an IEEE-754 double, not an exact rational.  A positive finite
double is represented here by an odd-normalised pair (m, e) of exact value
m * 2^e; none models OverflowError.  CPython rounds int/int true division,
int-to-float conversion and hardware float division correctly to nearest
with ties to even, which is what floatOfRat implements over the exact
integers.  Subnormal underflow is not modelled (out of range for every
value arising here). -/

/-- Floor of the base-two logarithm, fuel-based so that the kernel can
evaluate it. -/
def natLog2Aux : Nat → Nat → Nat
  | 0, _ => 0
  | fuel + 1, n => if n ≤ 1 then 0 else natLog2Aux fuel (n / 2) + 1

/-- floor(log2 n) for n ≥ 1. -/
def natLog2 (n : Nat) : Nat := natLog2Aux n n

/-- Is 2^e ≤ p/q, for positive integers p and q. -/
def pow2LeRat (p q : Nat) (e : Int) : Bool :=
  match e with
  | .ofNat k => q * 2 ^ k ≤ p
  | .negSucc k => q ≤ p * 2 ^ (k + 1)

/-- The binade exponent of p/q: the e with 2^e ≤ p/q < 2^(e+1). -/
def ratExp (p q : Nat) : Int :=
  let e0 : Int := (natLog2 p : Int) - (natLog2 q : Int)
  if pow2LeRat p q (e0 + 1) then e0 + 1
  else if pow2LeRat p q e0 then e0
  else e0 - 1

/-- The 53-bit significand of p/q: (p/q) * 2^(52-e) rounded to nearest
with ties to even. -/
def roundSig (p q : Nat) (e : Int) : Nat :=
  let xy : Nat × Nat :=
    match (52 : Int) - e with
    | .ofNat k => (p * 2 ^ k, q)
    | .negSucc k => (p, q * 2 ^ (k + 1))
  let s0 := xy.1 / xy.2
  let r := xy.1 % xy.2
  if 2 * r < xy.2 then s0
  else if xy.2 < 2 * r then s0 + 1
  else if s0 % 2 = 0 then s0 else s0 + 1

/-- Strip the factors of two from the significand, fuel-based. -/
def oddify : Nat → Nat → Int → Nat × Int
  | 0, m, e => (m, e)
  | fuel + 1, m, e => if m % 2 = 0 ∧ m ≠ 0 then oddify fuel (m / 2) (e + 1) else (m, e)

/-- Does m * 2^e reach 2^1024, the binary64 overflow threshold. -/
def floatOverflow (m : Nat) (e : Int) : Bool :=
  match (1024 : Int) - e with
  | .ofNat k => 2 ^ k ≤ m
  | .negSucc _ => true

/-- The rational (p/q) * 2^shift correctly rounded to a binary64 value,
odd-normalised; none on overflow. -/
def floatOfRat (p q : Nat) (shift : Int) : Option (Nat × Int) :=
  if p = 0 then some (0, 0)
  else
    let e := ratExp p q
    let me := oddify 64 (roundSig p q e) (e - 52 + shift)
    if floatOverflow me.1 me.2 then none else some me

/-- Python true division of two positive integers (correctly rounded;
OverflowError as none, as raised by CPython long_true_divide). -/
def intTrueDiv (p q : Nat) : Option (Nat × Int) := floatOfRat p q 0

/-- Python float(n) conversion of a non-negative integer. -/
def intToFloat (n : Nat) : Option (Nat × Int) := floatOfRat n 1 0

/-- IEEE division of two represented doubles (the divisor nonzero). -/
def floatDiv (a b : Nat × Int) : Option (Nat × Int) :=
  floatOfRat a.1 b.1 (a.2 - b.2)

/-- The exact rational value of a represented double. -/
def fval (f : Nat × Int) : ℚ := (f.1 : ℚ) * (2 : ℚ) ^ f.2

/-- num_pairs_in_list (tree.py line 110 and quantum_model_learning_agent.py
line 3272, identical bodies): nCk with k = 2 computed through factorials
and Python float true division.  For n ≤ 1 the integer 0 is returned
(value (0,0)).  Otherwise a = n!/2! as a correctly rounded double; if that
division overflows (n ≥ 171) the OverflowError is caught by the bare
except, leaving a and b unbound, and the return statement then raises:
none.  The return value divides a by float(b) where b = (n-2)! is an
integer converted at the division. -/
def num_pairs_in_list (num_models : Nat) : Option (Nat × Int) :=
  if num_models ≤ 1 then some (0, 0)
  else
    let n := num_models
    let k := 2
    match intTrueDiv (Nat.factorial n) (Nat.factorial k) with
    | none => none
    | some a =>
      match intToFloat (Nat.factorial (n - k)) with
      | none => none
      | some fb => floatDiv a fb

/-! ### Orchestrator state (quantum_model_learning_agent.py) -/

/-- One row of the running pandas database: the columns the embedded code
reads or writes. -/
structure DbRow where
  name : String
  modelId : Nat
  status : String
  completed : Bool
  deriving Repr, DecidableEq

/-- The mutable attributes of QuantumModelLearningAgent touched by the
embedded functions, together with the redis stores it polls.  Dict-valued
attributes are total functions with the dictionary defaults baked in where
the source initialises them; Option-valued lookups model dictionaries whose
missing keys raise. -/
structure QmlaState where
  -- model registry
  db : List DbRow := []
  modelLists : Nat → List String := fun _ => []
  numModels : Nat := 0
  highestModelID : Nat := 0
  modelNameIdMap : Nat → Option String := fun _ => none
  trueModelName : String := "x"
  trueOpModelID : Option Nat := none
  -- branch bookkeeping
  highestBranchID : Nat := 0
  branchBayesComputed : Nat → Bool := fun _ => false
  numModelsPerBranch : Nat → Nat := fun _ => 0
  numModelPairsPerBranch : Nat → Nat × Int := fun _ => (0, 0)
  branchAllModelsLearned : Nat → Bool := fun _ => false
  branchComparisonsComplete : Nat → Bool := fun _ => false
  branchGrowthRule : Nat → String := fun _ => ""
  branchModels : Nat → List String := fun _ => []
  branchPrecomputedModels : Nat → List String := fun _ => []
  branchNumModelsPreComputed : Nat → Nat := fun _ => 0
  branchModelIds : Nat → List Nat := fun _ => []
  modelsBranches : Nat → Option Nat := fun _ => none
  branchParents : Nat → Option Nat := fun _ => none
  branchRankings : Nat → List Nat := fun _ => []
  branchChampions : Nat → Option Nat := fun _ => none
  branchBayesPoints : Nat → List (Nat × Nat) := fun _ => []
  branchChampsByNumQubits : String → Nat → List String := fun _ _ => []
  activeBranchChampList : List Nat := []
  ghostBranchList : List Nat := []
  -- pairwise comparison caches
  bayesFactors : Nat → Nat → List ℚ := fun _ _ => []
  bayesFactorPairComputed : List (Nat × Nat) := []
  bfRound : Nat := 0
  -- spawning and tree state
  spawnDepth : Nat := 0
  spawnDepthByGrowthRule : String → Nat := fun _ => 0
  treesCompleted : String → Bool := fun _ => false
  numTreesCompleted : Nat := 0
  numTrees : Nat := 1
  -- redis coordination store
  anyJobFailed : Bool := false
  activeBranchesLearning : List Nat := []
  learningCounts : Nat → Nat := fun _ => 0
  activeBranchesBayes : List Nat := []
  bayesCounts : Nat → Nat := fun _ => 0
  -- dispatch log of jobs handed to remote workers
  dispatchedLearning : List (Nat × String) := []
  dispatchedComparisons : List (Nat × Nat) := []

instance : Inhabited QmlaState := ⟨{}⟩

/-- Pointwise update of a Nat-indexed dictionary field. -/
def updF {α : Type} (f : Nat → α) (k : Nat) (v : α) : Nat → α :=
  fun n => if n = k then v else f n

/-- Pointwise update of a String-indexed dictionary field. -/
def updS {α : Type} (f : String → α) (k : String) (v : α) : String → α :=
  fun n => if n = k then v else f n

/-- Pointwise update of the doubly indexed comparison cache. -/
def upd2 (f : Nat → Nat → List ℚ) (a b : Nat) (v : List ℚ) : Nat → Nat → List ℚ :=
  fun x y => if x = a ∧ y = b then v else f x y

/-- The external collaborators and configuration: the redis bayes-factor
value store (indexed by recompute round and pair), the decisiveness
thresholds from the controls, the growth rule, and the asynchronous worker
pool advancing the coordination store between polls. -/
structure Env where
  bayesDb : Nat → Nat × Nat → Option ℚ
  bayesLower : ℚ := 5
  bayesUpper : ℚ := 100
  generateModels : QmlaState → Nat → List String := fun _ _ => []
  checkTreeCompleted : QmlaState → String → Nat → Bool := fun _ _ _ => false
  spawnStageComplete : String → Bool := fun _ => false
  workerAdvance : QmlaState → QmlaState := id

/-- Result of running a piece of orchestrator code: normal return, an
uncaught Python exception leaving the store in the given state, or fuel
exhaustion of a recursion the source does not bound. -/
inductive Outcome (α : Type) where
  | ok : α → Outcome α
  | crash : QmlaState → Outcome α
  | fuelOut : Outcome α

/-- Is the outcome an uncaught exception. -/
def Outcome.isCrash {α : Type} : Outcome α → Bool
  | .crash _ => true
  | _ => false

/-- Is the outcome a normal return. -/
def Outcome.isOk {α : Type} : Outcome α → Bool
  | .ok _ => true
  | _ => false

/-- Is the outcome fuel exhaustion. -/
def Outcome.isFuelOut {α : Type} : Outcome α → Bool
  | .fuelOut => true
  | _ => false

/-- The champion returned by a tournament outcome, if any. -/
def Outcome.champ : Outcome (QmlaState × Nat) → Option Nat
  | .ok (_, c) => some c
  | _ => none

/-- The state in which a computation left the store: its result state on
normal return, the state at the raise site on an exception. -/
def Outcome.afterState : Outcome (QmlaState × Nat) → Option QmlaState
  | .ok (s, _) => some s
  | .crash s => some s
  | .fuelOut => none

/-! ### Model registry (database_framework.py and database_launch) -/

/-- consider_new_model (database_framework.py line 755).  none models an
exception raised while parsing the qubit count. -/
def consider_new_model (model_lists : Nat → List String) (name : String) :
    Option String :=
  let al_name := alph name
  match get_num_qubits name with
  | none => none
  | some n_qub =>
    if al_name ∈ model_lists n_qub then some "Previously Considered"
    else some "New"

/-- model_id_from_name (database_framework.py line 874): alphabetises the
query, then selects the single row whose Name column matches; pandas item()
raises unless exactly one row matches, modelled by none. -/
def model_id_from_name (db : List DbRow) (name : String) : Option Nat :=
  let n := alph name
  match db.filter fun r => r.name = n with
  | [r] => some r.modelId
  | _ => none

/-- Modelled from the spec: qmla.database_launch.add_model is not under
src/.  Per spec section 4.1, getOrCreate canonicalises via the Namer and
looks the model up by canonical name in its qubit-count bucket; if absent
it records the canonical name in the bucket and appends a Ready row for the
model under the supplied id.  The row stores the name as passed (callers
pass an already-alphabetised name), matching the in-source analogue
add_model in Libraries/QML_lib/DataBase.py, which this module supersedes.
Returns whether the model was new; none models a parsing exception. -/
def add_model (s : QmlaState) (model_name : String) (modelID : Nat) :
    Option (Bool × QmlaState) :=
  let alph_model_name := alph model_name
  match get_num_qubits model_name with
  | none => none
  | some q =>
    match consider_new_model s.modelLists model_name with
    | none => none
    | some verdict =>
      if verdict = "New" then
        some (true,
          { s with
            modelLists := updF s.modelLists q (s.modelLists q ++ [alph_model_name])
            db := s.db ++ [{ name := model_name, modelId := modelID,
                             status := "Ready", completed := false }] })
      else some (false, s)

/-- add_model_to_database (quantum_model_learning_agent.py line 658).
Alphabetises the name, delegates to add_model with modelID = NumModels; on
a new model bumps the counters and records the name-id map entry; on a
repeat retrieves the id through model_id_from_name, whose failure is
re-raised (none). -/
def add_model_to_database (s : QmlaState) (model0 : String) :
    Option ((Bool × Nat) × QmlaState) :=
  let model := alph model0
  match add_model s model s.numModels with
  | none => none
  | some (tryAddModel, s1) =>
    if tryAddModel then
      let s2 :=
        { s1 with
          trueOpModelID :=
            if alph model = alph s1.trueModelName then some s1.numModels
            else s1.trueOpModelID
          highestModelID := s1.highestModelID + 1
          modelNameIdMap := updF s1.modelNameIdMap s1.numModels (some model)
          numModels := s1.numModels + 1 }
      some ((true, s1.numModels), s2)
    else
      match model_id_from_name s1.db model with
      | none => none
      | some mid => some ((false, mid), s1)

/-- The per-model loop of new_branch (quantum_model_learning_agent.py lines
774 to 801): registers each name, collecting the id list, the precomputed
names and their count; only first instances get a ModelsBranches entry. -/
def addModelsToBranch (branchID : Nat) :
    QmlaState → List String → List Nat → List String → Nat →
    Option (QmlaState × List Nat × List String × Nat)
  | s, [], ids, pre, cnt => some (s, ids, pre, cnt)
  | s, model :: rest, ids, pre, cnt =>
    match add_model_to_database s model with
    | none => none
    | some ((isNew, mid), s1) =>
      let s2 :=
        if isNew then { s1 with modelsBranches := updF s1.modelsBranches mid (some branchID) }
        else s1
      addModelsToBranch branchID s2 rest (ids ++ [mid])
        (if isNew then pre else pre ++ [model])
        (cnt + if isNew then 0 else 1)

/-- new_branch (quantum_model_learning_agent.py line 738).  The source
first removes duplicates with list(set(...)), whose order Python leaves
unspecified; first-occurrence order is chosen here.  Returns the new branch
id; none models an exception escaping model registration or the
num_pairs_in_list crash on oversized branches. -/
def new_branch (s0 : QmlaState) (growth_rule : String) (model_list0 : List String) :
    Option (Nat × QmlaState) :=
  let model_list := model_list0.eraseDups
  let branchID := s0.highestBranchID + 1
  let num_models := model_list.length
  match num_pairs_in_list num_models with
  | none => none
  | some num_pairs =>
  let s :=
    { s0 with
      highestBranchID := branchID
      branchBayesComputed := updF s0.branchBayesComputed branchID false
      numModelsPerBranch := updF s0.numModelsPerBranch branchID num_models
      numModelPairsPerBranch := updF s0.numModelPairsPerBranch branchID num_pairs
      branchAllModelsLearned := updF s0.branchAllModelsLearned branchID false
      branchComparisonsComplete := updF s0.branchComparisonsComplete branchID false
      branchGrowthRule := updF s0.branchGrowthRule branchID growth_rule }
  match addModelsToBranch branchID s model_list [] [] 0 with
  | none => none
  | some (s1, ids, pre, cnt) =>
    some (branchID,
      { s1 with
        branchNumModelsPreComputed := updF s1.branchNumModelsPreComputed branchID cnt
        branchModels := updF s1.branchModels branchID model_list
        branchPrecomputedModels := updF s1.branchPrecomputedModels branchID pre
        branchModelIds := updF s1.branchModelIds branchID ids })

/-! ### Tournament engine -/

/-- processRemoteBayesPair (quantum_model_learning_agent.py line 1273),
called with two model ids.  Reads the pair value from the bayes-factor
store at the current recompute round; a missing value makes the later use
of the unbound local raise (crash before any cache write).  Both cache
directions are appended, the lower id receiving the raw value and the
higher id its reciprocal; a zero value raises ZeroDivisionError after the
first append.  The champion is the lower id above the threshold, the higher
id below its reciprocal; in between no champion is ever assigned and the
return statement raises UnboundLocalError (crash after both appends). -/
def processRemoteBayesPair (env : Env) (s : QmlaState) (a b : Nat)
    (thr : Option ℚ) : Outcome (QmlaState × Nat) :=
  let bayes_threshold := thr.getD env.bayesLower
  let pair := unique_model_pair_identifier a b
  match env.bayesDb s.bfRound pair with
  | none => .crash s
  | some bayes_factor =>
    let lower_id := min a b
    let higher_id := max a b
    let s1 :=
      { s with
        bayesFactors :=
          upd2 s.bayesFactors lower_id higher_id
            (s.bayesFactors lower_id higher_id ++ [bayes_factor]) }
    if bayes_factor = 0 then .crash s1
    else
      let s2 :=
        { s1 with
          bayesFactors :=
            upd2 s1.bayesFactors higher_id lower_id
              (s1.bayesFactors higher_id lower_id ++ [1 / bayes_factor]) }
      if bayes_factor > bayes_threshold then .ok (s2, lower_id)
      else if bayes_factor < 1 / bayes_threshold then .ok (s2, higher_id)
      else .crash s2

/-- Initial points dictionary for a model list: every id zero, keyed in
first-insertion order (duplicate ids collapse as in a Python dict). -/
def initPts (l : List Nat) : List (Nat × Nat) :=
  l.eraseDups.map fun m => (m, 0)

/-- models_points[res] += 1. -/
def bumpPts (pts : List (Nat × Nat)) (k : Nat) : List (Nat × Nat) :=
  pts.map fun p => if p.1 = k then (p.1, p.2 + 1) else p

/-- Inner comparison loop: one fixed model against each later model in the
branch list, awarding a point to each returned champion.  The thresholds of
the point decisions come from the controls default, as in the source where
processRemoteBayesPair is called without a threshold argument. -/
def scoreAgainst (env : Env) :
    QmlaState → Nat → List Nat → List (Nat × Nat) →
    Outcome (QmlaState × List (Nat × Nat))
  | s, _, [], pts => .ok (s, pts)
  | s, m, n :: ns, pts =>
    if m = n then scoreAgainst env s m ns pts
    else
      match processRemoteBayesPair env s m n none with
      | .crash s' => .crash s'
      | .fuelOut => .fuelOut
      | .ok (s', res) => scoreAgainst env s' m ns (bumpPts pts res)

/-- The double loop over unordered pairs of the model list (lines 1363 to
1376 and 1535 to 1553 of quantum_model_learning_agent.py share it). -/
def scorePairs (env : Env) :
    QmlaState → List Nat → List (Nat × Nat) →
    Outcome (QmlaState × List (Nat × Nat))
  | s, [], pts => .ok (s, pts)
  | s, m :: rest, pts =>
    match scoreAgainst env s m rest pts with
    | .crash s' => .crash s'
    | .fuelOut => .fuelOut
    | .ok (s', pts') => scorePairs env s' rest pts'

/-- max(models_points.values()); none on an empty dict, where Python max
raises ValueError. -/
def maxPoints (pts : List (Nat × Nat)) : Option Nat :=
  (pts.map fun p => p.2).max?

/-- The keys holding the maximal value, in insertion order. -/
def maxPointKeys (pts : List (Nat × Nat)) (mx : Nat) : List Nat :=
  (pts.filter fun p => p.2 = mx).map fun p => p.1

/-- Stable descending sort of the points dictionary by value, keeping
insertion order on ties: sorted(models_points, key=get, reverse=True). -/
def insertRanked (x : Nat × Nat) : List (Nat × Nat) → List (Nat × Nat)
  | [] => [x]
  | y :: ys => if y.2 ≤ x.2 then x :: y :: ys else y :: insertRanked x ys

/-- Ranked key list, best first. -/
def rankedSort : List (Nat × Nat) → List (Nat × Nat)
  | [] => []
  | x :: xs => insertRanked x (rankedSort xs)

/-- The unordered distinct pairs of a list, in the double-loop order of the
source (outer index i, inner index j from i, skipping equal ids). -/
def pairsOf : List Nat → List (Nat × Nat)
  | [] => []
  | m :: rest =>
    ((rest.filter fun n => n ≠ m).map (unique_model_pair_identifier m)) ++ pairsOf rest

/-- get_bayes_factors_from_list with recompute=True and wait_on_result
(quantum_model_learning_agent.py line 1147): re-dispatches every pair of
the list and blocks until the store holds fresh values; modelled by
advancing the recompute round that bayesDb is indexed by, and logging the
dispatched pairs. -/
def recomputePairs (s : QmlaState) (l : List Nat) : QmlaState :=
  { s with bfRound := s.bfRound + 1
           dispatchedComparisons := s.dispatchedComparisons ++ pairsOf l }

/-- compare_models_from_list (quantum_model_learning_agent.py line 1521).
Scores every pair of the list; on a unique maximum returns that model after
the name-map lookup of line 1589 (KeyError crash if absent); on a tie it
forces recomputation of the tied subset and recurses on exactly that
subset, with no recursion bound in the source, hence the fuel. -/
def compare_models_from_list (env : Env) :
    Nat → QmlaState → List Nat → Option ℚ → Outcome (QmlaState × Nat)
  | 0, _, _, _ => .fuelOut
  | fuel + 1, s, model_list, _thr =>
    match scorePairs env s model_list (initPts model_list) with
    | .crash s' => .crash s'
    | .fuelOut => .fuelOut
    | .ok (s1, pts) =>
      match maxPoints pts with
      | none => .crash s1
      | some mx =>
        let tied := maxPointKeys pts mx
        let champRes :=
          if tied.length > 1 then
            compare_models_from_list env fuel (recomputePairs s1 tied) tied
              (some env.bayesLower)
          else
            match tied.head? with
            | some c => .ok (s1, c)
            | none => .crash s1
        match champRes with
        | .crash s' => .crash s'
        | .fuelOut => .fuelOut
        | .ok (s3, champ) =>
          match s3.modelNameIdMap champ with
          | none => .crash s3
          | some _ => .ok (s3, champ)

/-- Deactivate every row carrying the given model id (update_field by
ModelID). -/
def deactivateById (db : List DbRow) (m : Nat) : List DbRow :=
  db.map fun r => if r.modelId = m then { r with status := "Deactivated" } else r

/-- Lines 1416 to 1519 of compare_all_models_in_branch: record the branch
champion, set statuses, freeze the ranking on first evaluation only, store
the points, and on ghost branches deactivate and unlist the losers. -/
def finaliseBranch (s0 : QmlaState) (branchID : Nat) (champ : Nat)
    (pts : List (Nat × Nat)) (active : List Nat) : Outcome (QmlaState × Nat) :=
  match s0.modelNameIdMap champ with
  | none => .crash s0
  | some champ_name =>
    match get_num_qubits champ_name with
    | none => .crash s0
    | some champ_q =>
      let growth_rule := s0.branchGrowthRule branchID
      let s1 :=
        { s0 with
          branchChampions := updF s0.branchChampions branchID (some champ)
          activeBranchChampList :=
            if champ ∈ s0.activeBranchChampList then s0.activeBranchChampList
            else s0.activeBranchChampList ++ [champ]
          branchChampsByNumQubits :=
            updS s0.branchChampsByNumQubits growth_rule
              (updF (s0.branchChampsByNumQubits growth_rule) champ_q
                (s0.branchChampsByNumQubits growth_rule champ_q ++ [champ_name])) }
      let s2 :=
        { s1 with
          db :=
            (active.foldl deactivateById s1.db).map
              (fun (r : DbRow) =>
                if r.name = champ_name then { r with status := "Active" } else r) }
      let ranked := (rankedSort pts).map fun p => p.1
      let s3 :=
        if s2.branchBayesComputed branchID = false then
          { s2 with branchRankings := updF s2.branchRankings branchID ranked
                    branchBayesComputed := updF s2.branchBayesComputed branchID true }
        else s2
      let s4 := { s3 with branchBayesPoints := updF s3.branchBayesPoints branchID pts }
      let s5 :=
        if (s4.ghostBranchList.contains branchID) = true then
          (active.eraseDups.filter fun m => m ≠ champ).foldl
            (fun st m =>
              { st with db := deactivateById st.db m
                        activeBranchChampList := st.activeBranchChampList.erase m })
            s4
        else s4
      .ok (s5, champ)

/-- compare_all_models_in_branch (quantum_model_learning_agent.py line
1337).  Scores every resident pair; on a tie of the maximal point set it
forces recomputation and delegates to compare_models_from_list on the tied
subset, then finalises the branch records. -/
def compare_all_models_in_branch (env : Env) (fuel : Nat) (s : QmlaState)
    (branchID : Nat) (thr : Option ℚ) : Outcome (QmlaState × Nat) :=
  let active := s.branchModelIds branchID
  let bayes_threshold := thr.getD env.bayesLower
  match scorePairs env s active (initPts active) with
  | .crash s' => .crash s'
  | .fuelOut => .fuelOut
  | .ok (s1, pts) =>
    match maxPoints pts with
    | none => .crash s1
    | some mx =>
      let tied := maxPointKeys pts mx
      let champRes :=
        if tied.length > 1 then
          compare_models_from_list env fuel (recomputePairs s1 tied) tied
            (some bayes_threshold)
        else
          match tied.head? with
          | some c => .ok (s1, c)
          | none => .crash s1
      match champRes with
      | .crash s' => .crash s'
      | .fuelOut => .fuelOut
      | .ok (s3, champ) => finaliseBranch s3 branchID champ pts active

/-! ### Learning dispatch and spawning -/

/-- learn_models_on_given_branch (quantum_model_learning_agent.py line
859): initialises the redis learned-counter of the branch to its
precomputed count, dispatches learning for the models not precomputed
(recorded in the dispatch log, each marked Completed in the running
database as in line 940), and registers the branch as a ghost branch when
it has nothing to learn. -/
def learn_models_on_given_branch (s0 : QmlaState) (branchID : Nat) : QmlaState :=
  let s :=
    { s0 with
      activeBranchesLearning :=
        if (s0.activeBranchesLearning.contains branchID) = true then
          s0.activeBranchesLearning
        else s0.activeBranchesLearning ++ [branchID]
      learningCounts :=
        updF s0.learningCounts branchID (s0.branchNumModelsPreComputed branchID) }
  let unlearned :=
    (s.branchModels branchID).eraseDups.filter
      fun m => ¬ (s.branchPrecomputedModels branchID).contains m
  let s1 :=
    if unlearned = [] then
      { s with ghostBranchList := s.ghostBranchList ++ [branchID] }
    else s
  unlearned.foldl
    (fun st m =>
      { st with
        dispatchedLearning := st.dispatchedLearning ++ [(branchID, m)]
        db := st.db.map
          (fun (r : DbRow) => if r.name = m then { r with completed := true } else r) })
    s1

/-- get_bayes_factors_by_branch_id (quantum_model_learning_agent.py line
1205): zeroes the redis comparison counter of the branch, then for every
unordered resident pair either dispatches a comparison job (uncached pairs)
or immediately increments the counter (cached pairs). -/
def get_bayes_factors_by_branch_id (s0 : QmlaState) (branchID : Nat) : QmlaState :=
  let s :=
    { s0 with
      activeBranchesBayes :=
        if (s0.activeBranchesBayes.contains branchID) = true then
          s0.activeBranchesBayes
        else s0.activeBranchesBayes ++ [branchID]
      bayesCounts := updF s0.bayesCounts branchID 0 }
  (pairsOf (s.branchModelIds branchID)).foldl
    (fun st p =>
      if (st.bayesFactorPairComputed.contains p) = true then
        { st with bayesCounts := updF st.bayesCounts branchID (st.bayesCounts branchID + 1) }
      else
        { st with
          dispatchedComparisons := st.dispatchedComparisons ++ [p]
          bayesFactorPairComputed := st.bayesFactorPairComputed ++ [p] })
    s

/-- Dictionary lookup of a list of model ids in model_name_id_map (the
list comprehension of lines 2037 to 2041); a missing key raises. -/
def lookupNames (f : Nat → Option String) : List Nat → Option (List String)
  | [] => some []
  | m :: ms =>
    match f m with
    | none => none
    | some nm =>
      match lookupNames f ms with
      | none => none
      | some rest => some (nm :: rest)

/-- spawn_from_branch (quantum_model_learning_agent.py line 2017) with
num_models = 1.  Asks the growth rule for next-generation names, removes
duplicates, alphabetises, registers them on a fresh branch with parent
linkage, dispatches their learning, and reports whether the tree is
complete.  The dimension fallback reproduces the try/except of lines 2093
to 2102.  none models an uncaught exception. -/
def spawn_from_branch (env : Env) (s0 : QmlaState) (branchID : Nat)
    (growth_rule : String) : Option (QmlaState × Bool) :=
  let s :=
    { s0 with
      spawnDepthByGrowthRule :=
        updS s0.spawnDepthByGrowthRule growth_rule
          (s0.spawnDepthByGrowthRule growth_rule + 1)
      spawnDepth := s0.spawnDepth + 1 }
  let best_models := (s.branchRankings branchID).take 1
  match lookupNames s.modelNameIdMap best_models with
  | none => none
  | some best_model_names =>
    let new_models := ((env.generateModels s branchID).eraseDups).map alph
    match new_branch s growth_rule new_models with
    | none => none
    | some (new_branch_id, s1) =>
      let s2 :=
        { s1 with branchParents := updF s1.branchParents new_branch_id (some branchID) }
      let dim? :=
        match new_models.head? with
        | some m =>
          match get_num_qubits m with
          | some d => some d
          | none => best_model_names.head?.bind get_num_qubits
        | none => best_model_names.head?.bind get_num_qubits
      match dim? with
      | none => none
      | some new_model_dimension =>
        let s3 := learn_models_on_given_branch s2 new_branch_id
        let tree_completed :=
          env.checkTreeCompleted s3 growth_rule new_model_dimension
            || env.spawnStageComplete growth_rule
        some (s3, tree_completed)

/-! ### The generation polling loop of run_complete_qmla -/

/-- The first for-loop of an iteration (lines 2867 to 2898): branches whose
learned count has reached their size are marked learned and have their
comparisons dispatched. -/
def learningPoll (s : QmlaState) : QmlaState :=
  s.activeBranchesLearning.foldl
    (fun st b =>
      if st.learningCounts b = st.numModelsPerBranch b
          ∧ st.branchAllModelsLearned b = false then
        get_bayes_factors_by_branch_id
          { st with branchAllModelsLearned := updF st.branchAllModelsLearned b true } b
      else st)
    s

/-- The second for-loop of an iteration (lines 2900 to 2947): branches
whose completed-comparison count has reached their pair count are marked
compared, their tournament is run, and unless the tree is already complete
the next generation is spawned, possibly completing the tree. -/
def bayesPoll (env : Env) (fuel : Nat) : QmlaState → List Nat → Outcome QmlaState
  | s, [] => .ok s
  | s, b :: rest =>
    if ((s.bayesCounts b : ℚ) = fval (s.numModelPairsPerBranch b)
        ∧ s.branchComparisonsComplete b = false) then
      let s1 :=
        { s with branchComparisonsComplete := updF s.branchComparisonsComplete b true }
      match compare_all_models_in_branch env fuel s1 b none with
      | .crash s' => .crash s'
      | .fuelOut => .fuelOut
      | .ok (s2, _champ) =>
        let g := s2.branchGrowthRule b
        if s2.treesCompleted g = false then
          match spawn_from_branch env s2 b g with
          | none => .crash s2
          | some (s3, completed) =>
            let s4 :=
              if completed then
                { s3 with
                  treesCompleted := updS s3.treesCompleted g true
                  numTreesCompleted := s3.numTreesCompleted + 1 }
              else s3
            bayesPoll env fuel s4 rest
        else bayesPoll env fuel s2 rest
    else bayesPoll env fuel s rest

/-- One iteration of the generation loop (lines 2859 to 2947).  The very
first statement of the loop body is inspect_remote_job_crashes (line 2865):
if the shared failure flag is set the iteration raises NameError with the
store untouched.  Otherwise the two polling passes run. -/
def qmlaIteration (env : Env) (fuel : Nat) (s : QmlaState) : Outcome QmlaState :=
  if s.anyJobFailed = true then .crash s
  else bayesPoll env fuel (learningPoll s) (learningPoll s).activeBranchesBayes

/-- The while-loop of run_complete_qmla (line 2859): iterate until every
tree is complete; between polls the external workers advance the
coordination store.  Outer fuel bounds the number of polls. -/
def runGenerationLoop (env : Env) (innerFuel : Nat) :
    Nat → QmlaState → Outcome QmlaState
  | 0, _ => .fuelOut
  | fuel + 1, s =>
    if s.numTreesCompleted < s.numTrees then
      match qmlaIteration env innerFuel s with
      | .ok s' => runGenerationLoop env innerFuel fuel (env.workerAdvance s')
      | .crash s' => .crash s'
      | .fuelOut => .fuelOut
    else .ok s

/-! ### Parent/child collapse (perform_final_bayes_comparisons) -/

/-- One step of the dispatch loop of perform_final_bayes_comparisons
(lines 1619 to 1668): when the branch of this active champion has a parent
with an active champion, a parent-versus-child comparison job is
dispatched. -/
def collapseDispatchStep (st : QmlaState) (child_id : Nat) : QmlaState :=
  match st.modelsBranches child_id with
  | none => st
  | some child_branch =>
    match st.branchParents child_branch with
    | none => st
    | some parent_branch =>
      match st.branchChampions parent_branch with
      | none => st
      | some parent_id =>
        if (st.activeBranchChampList.contains child_id) = true
            ∧ (st.activeBranchChampList.contains parent_id) = true then
          { st with
            dispatchedComparisons :=
              st.dispatchedComparisons ++
                [unique_model_pair_identifier parent_id child_id] }
        else st

/-- The dispatch loop over every active branch champion. -/
def collapseDispatch (s : QmlaState) : QmlaState :=
  s.activeBranchChampList.foldl collapseDispatchStep s

/-- One step of the deactivation loop of perform_final_bayes_comparisons
(lines 1709 to 1803).  A missing parent link, parent champion or store
value raises inside the try and the child is skipped; the ModelsBranches
lookup, though just outside the try, never fails for a registered model
(set at first registration, line 787), so a missing entry also skips.
Above the collapse threshold the higher id is deactivated and queued for
removal, below its reciprocal the lower id; the comparison is then cached
in both directions (a zero value loses its reciprocal entry to the caught
ZeroDivisionError, after the deactivation already happened). -/
def collapseChild (env : Env) (s : QmlaState) (acc : List Nat) (child_id : Nat) :
    QmlaState × List Nat :=
  match s.modelsBranches child_id with
  | none => (s, acc)
  | some child_branch =>
    match s.branchParents child_branch with
    | none => (s, acc)
    | some parent_branch =>
      match s.branchChampions parent_branch with
      | none => (s, acc)
      | some parent_id =>
        let mod1 := min parent_id child_id
        let mod2 := max parent_id child_id
        match env.bayesDb s.bfRound (mod1, mod2) with
        | none => (s, acc)
        | some bayes_factor =>
          let step :=
            if bayes_factor > 100000 then
              ({ s with db := deactivateById s.db mod2 }, acc ++ [mod2])
            else if bayes_factor < 1 / 100000 then
              ({ s with db := deactivateById s.db mod1 }, acc ++ [mod1])
            else (s, acc)
          let sA := step.1
          let accA := step.2
          let sB :=
            { sA with
              bayesFactors :=
                upd2 sA.bayesFactors mod1 mod2
                  (sA.bayesFactors mod1 mod2 ++ [bayes_factor]) }
          if bayes_factor = 0 then (sB, accA)
          else
            ({ sB with
               bayesFactors :=
                 upd2 sB.bayesFactors mod2 mod1
                   (sB.bayesFactors mod2 mod1 ++ [1 / bayes_factor]) }, accA)

/-- The parent/child collapse phase of perform_final_bayes_comparisons
(quantum_model_learning_agent.py lines 1593 to 1822): dispatch, process
every active branch champion against its parent-branch champion with the
collapse threshold 1e5 (line 1607), then rebuild the active champion list
without the deactivated models (the source uses a Python set difference,
whose order is unspecified; first-occurrence order is chosen). -/
def parentChildCollapse (env : Env) (s0 : QmlaState) : QmlaState :=
  let s := collapseDispatch s0
  let branch_champions := s.activeBranchChampList
  let res :=
    branch_champions.foldl
      (fun (p : QmlaState × List Nat) c => collapseChild env p.1 p.2 c)
      (s, [])
  { res.1 with
    activeBranchChampList :=
      (branch_champions.eraseDups).filter fun m => ¬ (res.2.contains m) }

/-! ### Invariants -/

/-- The reciprocal-cache invariant of the comparison records: for every
ordered pair, the higher-id cache holds pointwise reciprocals of the
lower-id cache. -/
def reciprocalCache (s : QmlaState) : Prop :=
  ∀ a b : Nat, a < b →
    s.bayesFactors b a = (s.bayesFactors a b).map fun x => 1 / x

/-- Reciprocity read in both directions: every recorded score satisfies
score(a,b) = 1/score(b,a). -/
def reciprocalBothWays (s : QmlaState) : Prop :=
  ∀ a b : Nat, a ≠ b →
    s.bayesFactors b a = (s.bayesFactors a b).map fun x => 1 / x

/-! ### Concrete instances used to evaluate the embedded code -/

/-- Empty orchestrator state. -/
def stateZero : QmlaState := {}

/-- Store giving the pair (1,2) the decisive ratio 10, threshold 5. -/
def envTen : Env := { bayesDb := fun _ p => if p = (1, 2) then some 10 else none }

/-- Store giving the pair (1,2) the decisive ratio 1/10, threshold 5. -/
def envTenth : Env := { bayesDb := fun _ p => if p = (1, 2) then some (1 / 10) else none }

/-- Store giving the pair (1,2) the inconclusive ratio 2, threshold 5. -/
def envTwo : Env := { bayesDb := fun _ p => if p = (1, 2) then some 2 else none }

/-- A branch 1 holding models 1 and 2. -/
def stateBranchPair : QmlaState :=
  { branchModelIds := fun b => if b = 1 then [1, 2] else [] }

/-- Store in which every ratio of the triple 1, 2, 3 is decisive but the
wins are cyclic (1 beats 2, 2 beats 3, 3 beats 1), at every recompute
round: each model scores one point, for ever. -/
def cycEnv : Env :=
  { bayesDb := fun _ p =>
      if p = (1, 2) then some 10
      else if p = (1, 3) then some (1 / 100)
      else if p = (2, 3) then some 10
      else none }

/-- Branch 1 with models 1 and 2, ranking already frozen to the sentinel
value [7], names registered for both models. -/
def stateFrozen : QmlaState :=
  { branchModelIds := fun b => if b = 1 then [1, 2] else []
    branchBayesComputed := fun b => b == 1
    branchRankings := fun b => if b = 1 then [7] else []
    modelNameIdMap := fun m =>
      if m = 1 then some "xPy" else if m = 2 then some "yPz" else none }

/-- Model 2 is the champion of branch 1, whose parent branch 0 has champion
model 1; only the child is on the active champion list. -/
def stateParentChild : QmlaState :=
  { activeBranchChampList := [2]
    modelsBranches := fun m => if m = 2 then some 1 else none
    branchParents := fun b => if b = 1 then some 0 else none
    branchChampions := fun b => if b = 0 then some 1 else none
    db := [{ name := "p", modelId := 1, status := "Active", completed := true },
           { name := "q", modelId := 2, status := "Active", completed := true }] }

/-- Store giving the parent/child pair (1,2) the ratio 1e6, above the
collapse threshold 1e5. -/
def envCollapse : Env := { bayesDb := fun _ p => if p = (1, 2) then some 1000000 else none }

/-- A state in which a worker has set the global failure flag while a tree
is still growing. -/
def stateFailed : QmlaState :=
  { anyJobFailed := true, numTrees := 1, numTreesCompleted := 0 }

/-- Empty bayes store and a growth rule proposing no models at all. -/
def envBarren : Env := { bayesDb := fun _ _ => none }

/-- Branch 1 ranked with the single model 0, named xPy. -/
def stateSpawn : QmlaState :=
  { branchRankings := fun b => if b = 1 then [0] else []
    modelNameIdMap := fun m => if m = 0 then some "xPy" else none
    highestBranchID := 1 }

/-! ## Theorems -/

/-- C10.  The canonicalisation function alph is not idempotent: the name
zPaPPb canonicalises to bPPaPz, which canonicalises further to aPzPPb.
The deep-sum branch of alph sorts the split elements before recursively
alphabetising them, so the sort key of an element changes after the
recursion; two equivalent operators can receive distinct canonical names,
contradicting the stated purpose of alph_name (database_framework.py line
263: uniquely identifies equivalent operators). -/
theorem claim_C10_alph_not_idempotent :
    alph "zPaPPb" = "bPPaPz"
      ∧ alph (alph "zPaPPb") = "aPzPPb"
      ∧ alph (alph "zPaPPb") ≠ alph "zPaPPb" := by
  refine ⟨rfl, rfl, ?_⟩
  decide

/-- C4.  Evaluation of the registration path at a canonical-unstable name.
Registering zPaPPb once succeeds with id 0 and grows the registry to one
model; registering the same name a second time does not return the
existing id: add_model reports it previously considered, then
model_id_from_name alphabetises the stored name a second time, matches no
row, and the exception is re-raised (none).  In contrast the stable pair
yPx / xPy dedups as the claim states, with the second registration
returning is_new_model false and the existing id 0. -/
theorem claim_C4_repeat_registration_raises :
    (add_model_to_database stateZero "zPaPPb").map (fun p => p.1) = some (true, 0)
      ∧ (add_model_to_database stateZero "zPaPPb").map (fun p => p.2.numModels) = some 1
      ∧ ((add_model_to_database stateZero "zPaPPb").bind
          (fun p => add_model_to_database p.2 "zPaPPb")).isNone = true
      ∧ ((add_model_to_database stateZero "yPx").bind
          (fun p => add_model_to_database p.2 "xPy")).map (fun p => p.1) = some (false, 0)
      ∧ ((add_model_to_database stateZero "yPx").bind
          (fun p => add_model_to_database p.2 "xPy")).map (fun p => p.2.numModels) = some 1 :=
  ⟨rfl, rfl, rfl, rfl, rfl⟩

/-- C1.  Evaluation of the pair-comparison decision at the decisiveness
threshold 5.  A ratio of 10 gives the point to the lower id and a ratio of
1/10 to the higher id, as the claim states; but the inconclusive ratio 2,
inside [1/5, 5], does not leave the pair without a point: champ is never
assigned and the return statement of processRemoteBayesPair raises
UnboundLocalError, so the whole branch tournament aborts. -/
theorem claim_C1_inconclusive_ratio_raises :
    (processRemoteBayesPair envTen stateZero 1 2 none).champ = some 1
      ∧ (processRemoteBayesPair envTenth stateZero 1 2 none).champ = some 2
      ∧ (processRemoteBayesPair envTwo stateZero 1 2 none).isCrash = true
      ∧ (compare_all_models_in_branch envTwo 10 stateBranchPair 1 none).isCrash = true := by
  refine ⟨rfl, ?_, ?_, ?_⟩
  · simp only [processRemoteBayesPair, envTenth, unique_model_pair_identifier]
    norm_num [Outcome.champ]
  · simp only [processRemoteBayesPair, envTwo, unique_model_pair_identifier]
    norm_num [Outcome.isCrash]
  · simp only [compare_all_models_in_branch, stateBranchPair, scorePairs, scoreAgainst,
      processRemoteBayesPair, envTwo, unique_model_pair_identifier, initPts]
    norm_num [Outcome.isCrash]

/-- C8.  When the coordination-store failure flag is set while trees are
still growing, the very next iteration of the generation polling loop
raises before touching any state: the loop result is the exception with
the store exactly as it was, so no further branch is created, dispatched
or spawned after the failure is observed. -/
theorem claim_C8_failure_flag_aborts (env : Env) (innerFuel fuel : Nat)
    (s : QmlaState)
    (hflag : s.anyJobFailed = true)
    (hgrowing : s.numTreesCompleted < s.numTrees) :
    qmlaIteration env innerFuel s = .crash s
      ∧ runGenerationLoop env innerFuel (fuel + 1) s = .crash s := by
  have hit : qmlaIteration env innerFuel s = .crash s := by
    unfold qmlaIteration
    rw [if_pos hflag]
  refine ⟨hit, ?_⟩
  unfold runGenerationLoop
  rw [if_pos hgrowing, hit]

/-- Helper: in the store cycEnv the three ratios are decisive but cyclic,
so every model of [1,2,3] scores exactly one point at every recompute
round; the tie-break recursion of compare_models_from_list therefore calls
itself on the same list for ever, and every finite fuel runs out. -/
theorem cyclicTieFuelOut : ∀ (n : Nat) (s : QmlaState) (thr : Option ℚ),
    compare_models_from_list cycEnv n s [1, 2, 3] thr = Outcome.fuelOut := by
  intro n
  induction n with
  | zero => intro s thr; rfl
  | succ n ih =>
    intro s thr
    show compare_models_from_list cycEnv (n + 1) s [1, 2, 3] thr = Outcome.fuelOut
    simp only [compare_models_from_list, scorePairs, scoreAgainst, processRemoteBayesPair,
      show unique_model_pair_identifier 1 2 = (1, 2) from rfl,
      show unique_model_pair_identifier 1 3 = (1, 3) from rfl,
      show unique_model_pair_identifier 2 3 = (2, 3) from rfl,
      show ∀ r, cycEnv.bayesDb r (1, 2) = some 10 from fun _ => rfl,
      show ∀ r, cycEnv.bayesDb r (1, 3) = some (1 / 100) from fun _ => rfl,
      show ∀ r, cycEnv.bayesDb r (2, 3) = some 10 from fun _ => rfl,
      show cycEnv.bayesLower = 5 from rfl,
      show (min 1 2 : Nat) = 1 from rfl, show (max 1 2 : Nat) = 2 from rfl,
      show (min 1 3 : Nat) = 1 from rfl, show (max 1 3 : Nat) = 3 from rfl,
      show (min 2 3 : Nat) = 2 from rfl, show (max 2 3 : Nat) = 3 from rfl,
      initPts, bumpPts, maxPoints, maxPointKeys,
      show ([1, 2, 3] : List Nat).eraseDups = [1, 2, 3] from rfl,
      Function.comp, Option.getD, List.map, List.filter]
    norm_num
    rw [ih]

/-- C2 (amended).  The tie of the maximal point set is retried on exactly
the tied subset with forced recomputation, but the recursion of
compare_models_from_list carries no recompute budget and raises no
InconclusiveTournament error: on a store whose recomputed ratios keep
producing the same three-way tie, the tournament call exhausts every
finite budget without ever returning a champion or an error, from any
store state and for any threshold argument. -/
theorem claim_C2_tie_recursion_unbounded :
    ∀ (fuel : Nat) (s : QmlaState) (thr : Option ℚ),
      compare_models_from_list cycEnv fuel s [1, 2, 3] thr = Outcome.fuelOut :=
  cyclicTieFuelOut

/-- C2 counterexample: with the persistent three-way tie and a recompute
budget of 100 rounds already spent, the engine has neither returned a
champion nor raised anything; the claimed InconclusiveTournament exit does
not exist in the code. -/
theorem claim_C2_counterexample :
    (compare_models_from_list cycEnv 100 stateZero [1, 2, 3] none).isFuelOut = true
      ∧ (compare_models_from_list cycEnv 100 stateZero [1, 2, 3] none).isOk = false
      ∧ (compare_models_from_list cycEnv 100 stateZero [1, 2, 3] none).isCrash = false := by
  rw [cyclicTieFuelOut 100 stateZero none]
  exact ⟨rfl, rfl, rfl⟩

/-- Helper: inverting a rational list twice gives it back (1/(1/q) = q
holds for every rational of the embedding, zero included). -/
theorem map_one_div_one_div (l : List ℚ) :
    ((l.map fun q => 1 / q).map fun q => 1 / q) = l := by
  simp [List.map_map, Function.comp, one_div_one_div]

/-- Helper: the one-sided reciprocal-cache invariant already gives
reciprocity in both directions. -/
theorem reciprocalCache.bothWays {t : QmlaState} (h : reciprocalCache t) :
    reciprocalBothWays t := by
  intro x y hxy
  rcases lt_or_gt_of_ne hxy with hlt | hgt
  · exact h x y hlt
  · rw [h y x hgt, map_one_div_one_div]

/-- Helper: reading upd2 back at the written position. -/
theorem upd2_same (f : Nat → Nat → List ℚ) (a b : Nat) (v : List ℚ) :
    upd2 f a b v a b = v := by simp [upd2]

/-- Helper: reading upd2 at any other position. -/
theorem upd2_other (f : Nat → Nat → List ℚ) (a b : Nat) (v : List ℚ)
    (x y : Nat) (h : ¬ (x = a ∧ y = b)) : upd2 f a b v x y = f x y := by
  simp only [upd2, if_neg h]

/-- C3.  Whenever processRemoteBayesPair processes a comparison of two
distinct models whose store value r is nonzero (a zero would raise
ZeroDivisionError mid-update), both cache directions are appended
reciprocally in one step: the lower id receives the raw ratio, the higher
id its reciprocal, and whichever way the call ends (decisive return or the
inconclusive UnboundLocalError, both after the updates) the state satisfies
score(a,b) = 1/score(b,a) for every recorded pair, provided it did
before. -/
theorem claim_C3_reciprocal_cache (env : Env) (s : QmlaState) (a b : Nat)
    (thr : Option ℚ) (r : ℚ)
    (hab : a ≠ b)
    (hdb : env.bayesDb s.bfRound (unique_model_pair_identifier a b) = some r)
    (hr : r ≠ 0)
    (hinv : reciprocalCache s) :
    ∃ s', (processRemoteBayesPair env s a b thr).afterState = some s'
      ∧ s'.bayesFactors (min a b) (max a b) = s.bayesFactors (min a b) (max a b) ++ [r]
      ∧ s'.bayesFactors (max a b) (min a b) = s.bayesFactors (max a b) (min a b) ++ [1 / r]
      ∧ reciprocalCache s'
      ∧ reciprocalBothWays s' := by
  have hlt : min a b < max a b := min_lt_max.mpr hab
  have hne : min a b ≠ max a b := ne_of_lt hlt
  have hcache : reciprocalCache
      { s with
        bayesFactors :=
          upd2
            (upd2 s.bayesFactors (min a b) (max a b)
              (s.bayesFactors (min a b) (max a b) ++ [r]))
            (max a b) (min a b)
            (upd2 s.bayesFactors (min a b) (max a b)
              (s.bayesFactors (min a b) (max a b) ++ [r]) (max a b) (min a b)
              ++ [1 / r]) } := by
    intro x y hxy
    show upd2 _ _ _ _ y x = List.map _ (upd2 _ _ _ _ x y)
    by_cases hx : x = min a b ∧ y = max a b
    · obtain ⟨rfl, rfl⟩ := hx
      rw [upd2_same,
        upd2_other _ _ _ _ (max a b) (min a b) (fun h => hne h.2),
        upd2_other _ _ _ _ (min a b) (max a b) (fun h => hne h.1),
        upd2_same, List.map_append, ← hinv (min a b) (max a b) hlt]
      rfl
    · have hA : ¬ (y = max a b ∧ x = min a b) := fun h => hx ⟨h.2, h.1⟩
      have hB : ¬ (y = min a b ∧ x = max a b) := by
        rintro ⟨rfl, rfl⟩
        exact absurd hxy (not_lt.mpr hlt.le)
      have hC : ¬ (x = max a b ∧ y = min a b) := by
        rintro ⟨rfl, rfl⟩
        exact absurd hxy (not_lt.mpr hlt.le)
      rw [upd2_other _ _ _ _ y x hA, upd2_other _ _ _ _ y x hB,
        upd2_other _ _ _ _ x y hC, upd2_other _ _ _ _ x y hx]
      exact hinv x y hxy
  refine
    ⟨{ s with
       bayesFactors :=
         upd2
           (upd2 s.bayesFactors (min a b) (max a b)
             (s.bayesFactors (min a b) (max a b) ++ [r]))
           (max a b) (min a b)
           (upd2 s.bayesFactors (min a b) (max a b)
             (s.bayesFactors (min a b) (max a b) ++ [r]) (max a b) (min a b)
             ++ [1 / r]) },
     ?_, ?_, ?_, hcache, hcache.bothWays⟩
  · simp only [processRemoteBayesPair, hdb, if_neg hr]
    split
    · rfl
    · split
      · rfl
      · rfl
  · show upd2 _ _ _ _ (min a b) (max a b) = _
    rw [upd2_other _ _ _ _ (min a b) (max a b) (fun h => hne h.1), upd2_same]
  · show upd2 _ _ _ _ (max a b) (min a b) = _
    rw [upd2_same,
      upd2_other _ _ _ _ (max a b) (min a b) (fun h => hne h.2)]

/-- C3 witness: processing the pair (1,2) with ratio 10 from the empty
cache. -/
theorem claim_C3_witness :
    ∃ s', (processRemoteBayesPair envTen stateZero 1 2 none).afterState = some s'
      ∧ s'.bayesFactors (min 1 2) (max 1 2)
          = stateZero.bayesFactors (min 1 2) (max 1 2) ++ [10]
      ∧ s'.bayesFactors (max 1 2) (min 1 2)
          = stateZero.bayesFactors (max 1 2) (min 1 2) ++ [1 / 10]
      ∧ reciprocalCache s'
      ∧ reciprocalBothWays s' :=
  claim_C3_reciprocal_cache envTen stateZero 1 2 none 10 (by decide) rfl
    (by norm_num) (fun a b h => rfl)

set_option maxRecDepth 100000 in
/-- Helper: one exact evaluation of num_pairs_in_list, read back as a
rational value. -/
theorem fval_case (k m e : Nat) (v : ℚ)
    (h1 : num_pairs_in_list k = some (m, (e : Int)))
    (h2 : (m : ℚ) * 2 ^ e = v) :
    (num_pairs_in_list k).map fval = some v := by
  rw [h1, Option.map_some']
  rw [show fval (m, (e : Int)) = (m : ℚ) * 2 ^ e from by
    simp [fval, zpow_natCast]]
  rw [h2]

set_option maxRecDepth 100000 in
set_option maxHeartbeats 1000000 in
/-- C5 (amended).  num_pairs_in_list returns the integer 0 for every n at
most 1.  For n at least 2 it returns the Python float evaluation of
(n!/2!)/(n-2)!: a correctly rounded binary64 result, which equals
n(n-1)/2 exactly for every branch size up to 18 (where the factorials are
exactly representable), but not for every n, and which crashes from n =
171 on, where the integer division overflows, the bare except swallows the
OverflowError and the return statement raises on the unbound locals. -/
theorem claim_C5_num_pairs_float (n : Nat) :
    (n ≤ 1 → num_pairs_in_list n = some (0, 0))
      ∧ (2 ≤ n → n ≤ 18 →
          (num_pairs_in_list n).map fval = some (((n : ℚ) * ((n : ℚ) - 1)) / 2))
      ∧ num_pairs_in_list 171 = none := by
  refine ⟨?_, ?_, by decide⟩
  · intro h
    unfold num_pairs_in_list
    rw [if_pos h]
  · intro h2 h18
    interval_cases n
    · exact fval_case 2 1 0 _ (by decide) (by norm_num)
    · exact fval_case 3 3 0 _ (by decide) (by norm_num)
    · exact fval_case 4 3 1 _ (by decide) (by norm_num)
    · exact fval_case 5 5 1 _ (by decide) (by norm_num)
    · exact fval_case 6 15 0 _ (by decide) (by norm_num)
    · exact fval_case 7 21 0 _ (by decide) (by norm_num)
    · exact fval_case 8 7 2 _ (by decide) (by norm_num)
    · exact fval_case 9 9 2 _ (by decide) (by norm_num)
    · exact fval_case 10 45 0 _ (by decide) (by norm_num)
    · exact fval_case 11 55 0 _ (by decide) (by norm_num)
    · exact fval_case 12 33 1 _ (by decide) (by norm_num)
    · exact fval_case 13 39 1 _ (by decide) (by norm_num)
    · exact fval_case 14 91 0 _ (by decide) (by norm_num)
    · exact fval_case 15 105 0 _ (by decide) (by norm_num)
    · exact fval_case 16 15 3 _ (by decide) (by norm_num)
    · exact fval_case 17 17 3 _ (by decide) (by norm_num)
    · exact fval_case 18 153 0 _ (by decide) (by norm_num)

set_option maxRecDepth 100000 in
set_option maxHeartbeats 1000000 in
/-- C5 counterexample: at a branch of 23 resident models the recorded
pair count is not exactly 253 = 23*22/2: the float evaluation returns the
next double above, 253 + 2^-45 (Python prints 253.00000000000003), so the
claimed exactness for every n at least 2 fails on the code. -/
theorem claim_C5_counterexample :
    num_pairs_in_list 23 = some (8901646138474497, -45)
      ∧ fval (8901646138474497, -45) = 253 + 1 / 2 ^ 45
      ∧ (num_pairs_in_list 23).map fval ≠ some (((23 : ℚ) * ((23 : ℚ) - 1)) / 2) := by
  have h1 : num_pairs_in_list 23 = some (8901646138474497, -45) := by decide
  have h2 : fval (8901646138474497, -45) = 253 + 1 / 2 ^ 45 := by
    rw [show fval (8901646138474497, -45)
        = (8901646138474497 : ℚ) * ((2 : ℚ) ^ (45 : ℕ))⁻¹ from by
      simp [fval]
      norm_num [zpow_neg, zpow_natCast]]
    norm_num
  refine ⟨h1, h2, ?_⟩
  rw [h1, Option.map_some', h2]
  intro hcontra
  rw [Option.some.injEq] at hcontra
  norm_num at hcontra

/-- C5 witness: the pair counts of branches of sizes 0 and 4. -/
theorem claim_C5_witness :
    num_pairs_in_list 0 = some (0, 0)
      ∧ (num_pairs_in_list 4).map fval = some (((4 : ℚ) * ((4 : ℚ) - 1)) / 2) :=
  ⟨(claim_C5_num_pairs_float 0).1 (by norm_num),
   (claim_C5_num_pairs_float 4).2.1 (by norm_num) (by norm_num)⟩

/-- Helper: updF read back at the written key. -/
theorem updF_same {α : Type} (f : Nat → α) (k : Nat) (v : α) : updF f k v k = v := by
  simp [updF]

/-- Helper: updF read at any other key. -/
theorem updF_other {α : Type} (f : Nat → α) (k : Nat) (v : α) (n : Nat)
    (h : n ≠ k) : updF f k v n = f n := by
  simp [updF, h]

/-- Helper: running the branch tournament on a branch with no resident
models crashes: the points dictionary is empty and max() raises
ValueError. -/
theorem empty_branch_tournament_crashes (env : Env) (fuel : Nat) (s : QmlaState)
    (b : Nat) (h : s.branchModelIds b = []) :
    (compare_all_models_in_branch env fuel s b none).isCrash = true := by
  simp only [compare_all_models_in_branch, h, initPts, scorePairs, maxPoints]
  rfl

/-- C9 (amended).  When the growth rule proposes zero models without
signalling completion, spawn_from_branch raises no error of any kind: it
registers an empty next branch (zero resident models, zero ids) and
returns normally, so the generation loop continues; the failure surfaces
only later, as an unstructured crash when the empty branch tournament
takes the maximum of an empty points dictionary. -/
theorem claim_C9_zero_models_no_error (env : Env) (s : QmlaState) (b fuel : Nat)
    (g : String) (rid : Nat) (nm : String) (d : Nat)
    (hgen : ∀ t, env.generateModels t b = [])
    (hrank : s.branchRankings b = [rid])
    (hname : s.modelNameIdMap rid = some nm)
    (hq : get_num_qubits nm = some d) :
    (spawn_from_branch env s b g).isSome = true
      ∧ (spawn_from_branch env s b g).map
          (fun p => p.1.numModelsPerBranch (s.highestBranchID + 1)) = some 0
      ∧ (spawn_from_branch env s b g).map
          (fun p => p.1.branchModelIds (s.highestBranchID + 1)) = some []
      ∧ (spawn_from_branch env s b g).map
          (fun p => (compare_all_models_in_branch env fuel p.1
            (s.highestBranchID + 1) none).isCrash) = some true := by
  simp only [spawn_from_branch, hgen, hrank, hname, hq, List.take, lookupNames,
    new_branch, addModelsToBranch, learn_models_on_given_branch, updF_same,
    show (([] : List String).eraseDups) = [] from rfl,
    show num_pairs_in_list 0 = some (0, 0) from rfl,
    List.map_nil, List.head?, List.filter, List.foldl, Option.bind,
    List.length_nil, Option.map_some, Option.isSome, ite_true]
  refine ⟨trivial, ?_, ?_, ?_⟩
  · simp [updF]
  · simp [updF]
  · rw [Option.map_some', empty_branch_tournament_crashes]
    simp [updF]

/-- C9 counterexample: a growth rule proposing zero models without
signalling completion does not make the run terminate with a fatal
configuration error; the spawn returns normally (no exception), the tree
is not marked complete, and the new branch is empty. -/
theorem claim_C9_counterexample :
    (spawn_from_branch envBarren stateSpawn 1 "gr").isSome = true
      ∧ (spawn_from_branch envBarren stateSpawn 1 "gr").map (fun p => p.2) = some false
      ∧ (spawn_from_branch envBarren stateSpawn 1 "gr").map
          (fun p => p.1.numModelsPerBranch 2) = some 0 :=
  ⟨rfl, rfl, rfl⟩

/-- C9 witness: the amended behaviour at the concrete empty-generation
instance. -/
theorem claim_C9_witness :
    (spawn_from_branch envBarren stateSpawn 1 "gr").isSome = true
      ∧ (spawn_from_branch envBarren stateSpawn 1 "gr").map
          (fun p => p.1.numModelsPerBranch (stateSpawn.highestBranchID + 1)) = some 0
      ∧ (spawn_from_branch envBarren stateSpawn 1 "gr").map
          (fun p => p.1.branchModelIds (stateSpawn.highestBranchID + 1)) = some []
      ∧ (spawn_from_branch envBarren stateSpawn 1 "gr").map
          (fun p => (compare_all_models_in_branch envBarren 3 p.1
            (stateSpawn.highestBranchID + 1) none).isCrash) = some true :=
  claim_C9_zero_models_no_error envBarren stateSpawn 1 3 "gr" 0 "xPy" 1
    (fun _ => rfl) rfl rfl rfl

/-- Helper frame: a successful processRemoteBayesPair call leaves the
branch rankings and the first-evaluation flags untouched. -/
theorem prbp_frame (env : Env) (s : QmlaState) (a b : Nat) (thr : Option ℚ)
    (s₂ : QmlaState) (c : Nat)
    (h : processRemoteBayesPair env s a b thr = .ok (s₂, c)) :
    s₂.branchRankings = s.branchRankings
      ∧ s₂.branchBayesComputed = s.branchBayesComputed := by
  simp only [processRemoteBayesPair] at h
  split at h
  · simp at h
  · split at h
    · simp at h
    · split at h
      · rw [Outcome.ok.injEq, Prod.mk.injEq] at h
        rw [← h.1]
        exact ⟨rfl, rfl⟩
      · split at h
        · rw [Outcome.ok.injEq, Prod.mk.injEq] at h
          rw [← h.1]
          exact ⟨rfl, rfl⟩
        · simp at h

/-- Helper frame for the inner scoring loop. -/
theorem scoreAgainst_frame (env : Env) :
    ∀ (l : List Nat) (s : QmlaState) (m : Nat) (pts : List (Nat × Nat))
      (s₂ : QmlaState) (pts₂ : List (Nat × Nat)),
      scoreAgainst env s m l pts = .ok (s₂, pts₂) →
        s₂.branchRankings = s.branchRankings
          ∧ s₂.branchBayesComputed = s.branchBayesComputed := by
  intro l
  induction l with
  | nil =>
    intro s m pts s₂ pts₂ h
    simp only [scoreAgainst, Outcome.ok.injEq, Prod.mk.injEq] at h
    rw [← h.1]
    exact ⟨rfl, rfl⟩
  | cons n ns ih =>
    intro s m pts s₂ pts₂ h
    simp only [scoreAgainst] at h
    split at h
    · exact ih s m pts s₂ pts₂ h
    · split at h
      · simp at h
      · simp at h
      · rename_i s' res hp
        obtain ⟨h1, h2⟩ := ih s' m (bumpPts pts res) s₂ pts₂ h
        obtain ⟨h3, h4⟩ := prbp_frame env s m n none s' res hp
        exact ⟨h1.trans h3, h2.trans h4⟩

/-- Helper frame for the pair-scoring double loop. -/
theorem scorePairs_frame (env : Env) :
    ∀ (l : List Nat) (s : QmlaState) (pts : List (Nat × Nat))
      (s₂ : QmlaState) (pts₂ : List (Nat × Nat)),
      scorePairs env s l pts = .ok (s₂, pts₂) →
        s₂.branchRankings = s.branchRankings
          ∧ s₂.branchBayesComputed = s.branchBayesComputed := by
  intro l
  induction l with
  | nil =>
    intro s pts s₂ pts₂ h
    simp only [scorePairs, Outcome.ok.injEq, Prod.mk.injEq] at h
    rw [← h.1]
    exact ⟨rfl, rfl⟩
  | cons m rest ih =>
    intro s pts s₂ pts₂ h
    simp only [scorePairs] at h
    split at h
    · simp at h
    · simp at h
    · rename_i s' pts' hsa
      obtain ⟨h1, h2⟩ := ih s' _ s₂ pts₂ h
      obtain ⟨h3, h4⟩ := scoreAgainst_frame env rest s m pts s' pts' hsa
      exact ⟨h1.trans h3, h2.trans h4⟩

/-- Helper frame for the tie-break recursion. -/
theorem cmfl_frame (env : Env) :
    ∀ (fuel : Nat) (l : List Nat) (s : QmlaState) (thr : Option ℚ)
      (s₂ : QmlaState) (c : Nat),
      compare_models_from_list env fuel s l thr = .ok (s₂, c) →
        s₂.branchRankings = s.branchRankings
          ∧ s₂.branchBayesComputed = s.branchBayesComputed := by
  intro fuel
  induction fuel with
  | zero =>
    intro l s thr s₂ c h
    simp [compare_models_from_list] at h
  | succ n ih =>
    intro l s thr s₂ c h
    simp only [compare_models_from_list] at h
    split at h
    · simp at h
    · simp at h
    · rename_i s1 pts hsp
      obtain ⟨hf1, hf2⟩ := scorePairs_frame env l s (initPts l) s1 pts hsp
      split at h
      · simp at h
      · split at h
        · simp at h
        · simp at h
        · rename_i s3 champ hres
          split at h
          · simp at h
          · rw [Outcome.ok.injEq, Prod.mk.injEq] at h
            rw [← h.1]
            split at hres
            · obtain ⟨hg1, hg2⟩ := ih _ _ _ s3 champ hres
              exact ⟨hg1.trans hf1, hg2.trans hf2⟩
            · split at hres
              · rw [Outcome.ok.injEq, Prod.mk.injEq] at hres
                rw [← hres.1]
                exact ⟨hf1, hf2⟩
              · simp at hres

/-- Helper frame for the ghost-branch loser fold of finaliseBranch. -/
theorem ghost_fold_frame (l : List Nat) :
    ∀ s : QmlaState,
      ((l.foldl (fun st m =>
          { st with db := deactivateById st.db m
                    activeBranchChampList := st.activeBranchChampList.erase m }) s).branchRankings
        = s.branchRankings)
      ∧ ((l.foldl (fun st m =>
          { st with db := deactivateById st.db m
                    activeBranchChampList := st.activeBranchChampList.erase m }) s).branchChampions
        = s.branchChampions) := by
  induction l with
  | nil => exact fun s => ⟨rfl, rfl⟩
  | cons m ms ih =>
    intro s
    rw [List.foldl_cons]
    exact ⟨(ih _).1.trans rfl, (ih _).2.trans rfl⟩

/-- Helper: on a branch whose first evaluation already happened, the
finalisation step records the champion but leaves the frozen ranking as it
was. -/
theorem finaliseBranch_frozen (s : QmlaState) (b champ : Nat)
    (pts : List (Nat × Nat)) (active : List Nat)
    (hflag : s.branchBayesComputed b = true)
    (s₂ : QmlaState) (c : Nat)
    (h : finaliseBranch s b champ pts active = .ok (s₂, c)) :
    s₂.branchRankings = s.branchRankings ∧ s₂.branchChampions b = some c := by
  have hcond : (s.branchBayesComputed b = false) = False := by simp [hflag]
  simp only [finaliseBranch] at h
  split at h
  · simp at h
  · split at h
    · simp at h
    · rw [Outcome.ok.injEq, Prod.mk.injEq] at h
      obtain ⟨h1, h2⟩ := h
      subst h2
      simp only [hcond, if_false] at h1
      rw [← h1]
      constructor
      · split
        · exact (ghost_fold_frame _ _).1.trans rfl
        · rfl
      · split
        · rw [(ghost_fold_frame _ _).2]
          exact updF_same _ _ _
        · exact updF_same _ _ _

/-- Helper: the whole branch tournament, run on a branch whose ranking was
already recorded, returns with every branch ranking unchanged while still
recording the branch champion. -/
theorem compare_all_frozen (env : Env) (fuel : Nat) (s : QmlaState) (b : Nat)
    (thr : Option ℚ) (s₂ : QmlaState) (c : Nat)
    (hflag : s.branchBayesComputed b = true)
    (h : compare_all_models_in_branch env fuel s b thr = .ok (s₂, c)) :
    s₂.branchRankings = s.branchRankings ∧ s₂.branchChampions b = some c := by
  simp only [compare_all_models_in_branch] at h
  split at h
  · simp at h
  · simp at h
  · rename_i s1 pts hsp
    obtain ⟨hf1, hf2⟩ := scorePairs_frame env _ s _ s1 pts hsp
    split at h
    · simp at h
    · split at h
      · simp at h
      · simp at h
      · rename_i s3 champ hres
        have hframe13 : s3.branchRankings = s1.branchRankings
            ∧ s3.branchBayesComputed = s1.branchBayesComputed := by
          split at hres
          · obtain ⟨a1, a2⟩ := cmfl_frame env fuel _ _ _ s3 champ hres
            exact ⟨a1.trans rfl, a2.trans rfl⟩
          · split at hres
            · rw [Outcome.ok.injEq, Prod.mk.injEq] at hres
              rw [← hres.1]
              exact ⟨rfl, rfl⟩
            · simp at hres
        have hflag3 : s3.branchBayesComputed b = true := by
          rw [hframe13.2, hf2]
          exact hflag
        obtain ⟨g1, g2⟩ := finaliseBranch_frozen s3 b champ pts _ hflag3 s₂ c h
        exact ⟨g1.trans (hframe13.1.trans hf1), g2⟩

/-- C6.  A branch ranking is frozen on the first completed evaluation:
when the branch tournament runs again on a branch whose
BranchBayesComputed flag is already set, the returned state carries every
branch ranking exactly as before, while the branch champion record is
still updated to the new champion. -/
theorem claim_C6_ranking_frozen (env : Env) (fuel : Nat) (s : QmlaState)
    (b : Nat) (thr : Option ℚ)
    (hdone : s.branchBayesComputed b = true)
    (hok : (compare_all_models_in_branch env fuel s b thr).isOk = true) :
    (compare_all_models_in_branch env fuel s b thr).afterState.map
        (fun t => t.branchRankings) = some s.branchRankings
      ∧ (compare_all_models_in_branch env fuel s b thr).afterState.map
          (fun t => t.branchChampions b)
        = some ((compare_all_models_in_branch env fuel s b thr).champ) := by
  cases hres : compare_all_models_in_branch env fuel s b thr with
  | ok p =>
    obtain ⟨s₂, c⟩ := p
    obtain ⟨g1, g2⟩ := compare_all_frozen env fuel s b thr s₂ c hdone hres
    simp [Outcome.afterState, Outcome.champ, g1, g2]
  | crash t =>
    rw [hres] at hok
    simp [Outcome.isOk] at hok
  | fuelOut =>
    rw [hres] at hok
    simp [Outcome.isOk] at hok

/-- C6 witness: re-running the tournament of branch 1, whose ranking is
frozen to [7], changes no ranking and records champion 1. -/
theorem claim_C6_witness :
    (compare_all_models_in_branch envTen 10 stateFrozen 1 none).afterState.map
        (fun t => t.branchRankings) = some stateFrozen.branchRankings
      ∧ (compare_all_models_in_branch envTen 10 stateFrozen 1 none).afterState.map
          (fun t => t.branchChampions 1)
        = some ((compare_all_models_in_branch envTen 10 stateFrozen 1 none).champ) :=
  claim_C6_ranking_frozen envTen 10 stateFrozen 1 none rfl rfl

/-- C8 witness: a concrete failed store aborts the loop with the store
unchanged. -/
theorem claim_C8_witness :
    qmlaIteration envBarren 5 stateFailed = .crash stateFailed
      ∧ runGenerationLoop envBarren 5 (3 + 1) stateFailed = .crash stateFailed :=
  claim_C8_failure_flag_aborts envBarren 5 3 stateFailed rfl (by decide)


/-- Helper frame: a dispatch step touches only the dispatch log. -/
theorem collapseDispatchStep_frame (st : QmlaState) (cid : Nat) :
    (collapseDispatchStep st cid).db = st.db
      ∧ (collapseDispatchStep st cid).activeBranchChampList = st.activeBranchChampList
      ∧ (collapseDispatchStep st cid).modelsBranches = st.modelsBranches
      ∧ (collapseDispatchStep st cid).branchParents = st.branchParents
      ∧ (collapseDispatchStep st cid).branchChampions = st.branchChampions
      ∧ (collapseDispatchStep st cid).bfRound = st.bfRound := by
  unfold collapseDispatchStep
  repeat' split
  all_goals exact ⟨rfl, rfl, rfl, rfl, rfl, rfl⟩

/-- Helper frame: the whole dispatch loop touches only the dispatch log. -/
theorem collapseDispatch_frame_aux :
    ∀ (l : List Nat) (s : QmlaState),
      (l.foldl collapseDispatchStep s).db = s.db
        ∧ (l.foldl collapseDispatchStep s).activeBranchChampList = s.activeBranchChampList
        ∧ (l.foldl collapseDispatchStep s).modelsBranches = s.modelsBranches
        ∧ (l.foldl collapseDispatchStep s).branchParents = s.branchParents
        ∧ (l.foldl collapseDispatchStep s).branchChampions = s.branchChampions
        ∧ (l.foldl collapseDispatchStep s).bfRound = s.bfRound := by
  intro l
  induction l with
  | nil => exact fun s => ⟨rfl, rfl, rfl, rfl, rfl, rfl⟩
  | cons a as ih =>
    intro s
    rw [List.foldl_cons]
    obtain ⟨i1, i2, i3, i4, i5, i6⟩ := ih (collapseDispatchStep s a)
    obtain ⟨j1, j2, j3, j4, j5, j6⟩ := collapseDispatchStep_frame s a
    exact ⟨i1.trans j1, i2.trans j2, i3.trans j3, i4.trans j4, i5.trans j5, i6.trans j6⟩

/-- Helper: after deactivateById every row of the model carries the
Deactivated status. -/
theorem deactivateById_spec (db : List DbRow) (m : Nat) :
    ∀ row ∈ deactivateById db m, row.modelId = m → row.status = "Deactivated" := by
  intro row hrow hid
  simp only [deactivateById, List.mem_map] at hrow
  obtain ⟨r0, hmem, hr0⟩ := hrow
  subst hr0
  by_cases hc : r0.modelId = m
  · simp [hc]
  · rw [if_neg hc] at hid ⊢
    exact absurd hid hc

/-- Helper: rebuilding the champion list without the removed models indeed
excludes every removed model. -/
theorem not_mem_filter_removed (l rem : List Nat) (m : Nat) (hm : m ∈ rem) :
    m ∉ List.filter (fun x => ¬ rem.contains x) l := by
  intro hmem
  rw [List.mem_filter] at hmem
  have h2 := hmem.2
  simp at h2
  exact h2 hm

/-- C7.  Parent/child collapse: for an active branch champion whose branch
has a recorded parent with champion p, the stored ratio r of the pair is
compared against the collapse threshold C = 1e5 of the source.  Above C
the higher id is deactivated in the running database and excluded from the
active champion list (hence from the final ghost-branch tournament);
below 1/C the lower id is; for r within [1/C, C] the database is untouched
and the champion list unchanged. -/
theorem claim_C7_parent_child_collapse (env : Env) (s : QmlaState)
    (c p br pb : Nat) (r : ℚ)
    (hlist : s.activeBranchChampList = [c])
    (hbr : s.modelsBranches c = some br)
    (hpb : s.branchParents br = some pb)
    (hp : s.branchChampions pb = some p)
    (hdb : env.bayesDb s.bfRound (min p c, max p c) = some r) :
    (r > 100000 →
        (∀ row ∈ (parentChildCollapse env s).db,
            row.modelId = max p c → row.status = "Deactivated")
          ∧ max p c ∉ (parentChildCollapse env s).activeBranchChampList)
      ∧ (r < 1 / 100000 →
          (∀ row ∈ (parentChildCollapse env s).db,
              row.modelId = min p c → row.status = "Deactivated")
            ∧ min p c ∉ (parentChildCollapse env s).activeBranchChampList)
      ∧ (1 / 100000 ≤ r → r ≤ 100000 →
          (parentChildCollapse env s).db = s.db
            ∧ (parentChildCollapse env s).activeBranchChampList = [c]) := by
  obtain ⟨hD, hA, hM, hP, hC, hR⟩ := collapseDispatch_frame_aux s.activeBranchChampList s
  have hA' : (collapseDispatch s).activeBranchChampList = [c] := by
    rw [collapseDispatch, hA, hlist]
  have hM' : (collapseDispatch s).modelsBranches c = some br := by
    rw [collapseDispatch, hM, hbr]
  have hP' : (collapseDispatch s).branchParents br = some pb := by
    rw [collapseDispatch, hP, hpb]
  have hC' : (collapseDispatch s).branchChampions pb = some p := by
    rw [collapseDispatch, hC, hp]
  have hDB' : env.bayesDb (collapseDispatch s).bfRound (min p c, max p c) = some r := by
    rw [collapseDispatch, hR, hdb]
  have hD' : (collapseDispatch s).db = s.db := by
    rw [collapseDispatch, hD]
  simp only [parentChildCollapse, hA', List.foldl_cons, List.foldl_nil, collapseChild,
    hM', hP', hC', hDB']
  refine ⟨?_, ?_, ?_⟩
  · intro h1
    have hr0 : ¬ r = 0 := by
      intro h0
      rw [h0] at h1
      norm_num at h1
    rw [if_pos h1, if_neg hr0]
    constructor
    · intro row hrow hid
      rw [hD'] at hrow
      exact deactivateById_spec s.db (max p c) row hrow hid
    · show max p c ∉ List.filter _ (([c]).eraseDups)
      rw [show ([c]).eraseDups = [c] from rfl]
      exact not_mem_filter_removed [c] [max p c] (max p c) (by simp)
  · intro h2
    have hn1 : ¬ r > 100000 := by
      intro hgt
      have : (1 : ℚ) / 100000 < 100000 := by norm_num
      linarith
    rw [if_neg hn1, if_pos h2]
    constructor
    · intro row hrow hid
      rw [hD'] at hrow
      revert hrow hid
      split
      · intro hrow hid
        exact deactivateById_spec s.db (min p c) row hrow hid
      · intro hrow hid
        exact deactivateById_spec s.db (min p c) row hrow hid
    · show min p c ∉ List.filter _ (([c]).eraseDups)
      rw [show ([c]).eraseDups = [c] from rfl]
      split
      · exact not_mem_filter_removed [c] [min p c] (min p c) (by simp)
      · exact not_mem_filter_removed [c] [min p c] (min p c) (by simp)
  · intro h3 h4
    have hr0 : ¬ r = 0 := by
      intro h0
      rw [h0] at h3
      norm_num at h3
    rw [if_neg (not_lt.mpr h4), if_neg (not_lt.mpr h3), if_neg hr0]
    constructor
    · exact hD'
    · show List.filter _ (([c]).eraseDups) = [c]
      rw [show ([c]).eraseDups = [c] from rfl]
      simp

/-- C7 witness: parent champion 1 versus child champion 2 with ratio 1e6
and C = 1e5: the child is deactivated and excluded. -/
theorem claim_C7_witness :
    (∀ row ∈ (parentChildCollapse envCollapse stateParentChild).db,
        row.modelId = max 1 2 → row.status = "Deactivated")
      ∧ max 1 2 ∉ (parentChildCollapse envCollapse stateParentChild).activeBranchChampList :=
  (claim_C7_parent_child_collapse envCollapse stateParentChild 2 1 1 0 1000000
    rfl rfl rfl rfl rfl).1 (by norm_num)

end QMLA
